import Mathlib

/-!
Shallow embedding of `src/FrameLogger.h` (class `FrameLogger<Ts...>`).

Modelling conventions:
* The output stream `std::ofstream outfile` is a `Sink`: `good` is the
  stream state after `open` (false when the destination could not be
  opened, in which case the failbit is set and every later insertion is
  a no-op), `data` is everything successfully streamed so far.
* The template parameter pack `Ts...` becomes a type parameter `Row`
  (one row = one `std::tuple<Ts...>`); a serialization function
  `fieldStrs : Row → List String` yields, in schema order, the text each
  field produces under `operator<<`.  Tokens passed to the variadic
  `add_line`/`add_word` are likewise given by their streamed text.
* `std::endl` contributes the line terminator "\n".
* `m_index[last_index] = ...` and `m_content[last_frame] = ...` are
  unchecked `std::vector` subscripts: when the index is out of bounds the
  C++ has undefined behavior.  The embedding returns `Option`, with
  `none` marking exactly that undefined out-of-bounds write; the source
  itself performs no bounds check and signals no error.
-/

namespace FrameLoggerModel

/-- The output stream: `good` = open succeeded (failbit clear), `data` =
characters streamed so far. -/
structure Sink where
  good : Bool
  data : String

/-- One `operator<<` insertion: appends when the stream is good, no-op on a
failed stream. -/
def Sink.emit (s : Sink) (str : String) : Sink :=
  if s.good then { s with data := s.data ++ str } else s

/-- Stream a list of tokens one after the other (`(outfile << ... << ts)`). -/
def Sink.emitAll (s : Sink) (toks : List String) : Sink :=
  toks.foldl Sink.emit s

/-- Concatenation of a list of strings. -/
def strConcat : List String → String
  | [] => ""
  | a :: l => a ++ strConcat l

/-- State of a `FrameLogger<Ts...>` object (fields named as in the source). -/
structure FrameLogger (Row : Type) where
  m_index : List Int
  m_content : List Row
  last_index : Nat
  last_frame : Nat
  log_written : Bool
  outfile : Sink
  headline : String

/-- `FrameLogger(int num_trials, int num_frames, const char* file_name)`:
`m_index(num_trials)` value-initializes `num_trials` ints to 0,
`m_content(num_frames)` default-constructs `num_frames` rows;
`outfile.open(file_name, std::ios::out)` leaves `good := openOk` (the
constructor never inspects or reports the open result). -/
def FrameLogger.construct (Row : Type) [Inhabited Row]
    (num_trials num_frames : Nat) (openOk : Bool) : FrameLogger Row :=
  { m_index := List.replicate num_trials 0
    m_content := List.replicate num_frames default
    last_index := 0
    last_frame := 0
    log_written := false
    outfile := { good := openOk, data := "" }
    headline := "" }

/-- `add_headline(std::string headline_in) { headline = headline_in; }` -/
def FrameLogger.add_headline {Row : Type} (L : FrameLogger Row)
    (headline_in : String) : FrameLogger Row :=
  { L with headline := headline_in }

/-- `start_new_trial() { m_index[last_index] = last_frame; ++last_index; }` —
the subscript is unchecked in the source; `none` is the undefined
out-of-bounds write when `last_index` is not below the vector's size. -/
def FrameLogger.start_new_trial {Row : Type} (L : FrameLogger Row) :
    Option (FrameLogger Row) :=
  if L.last_index < L.m_index.length then
    some { L with
             m_index := L.m_index.set L.last_index (L.last_frame : Int)
             last_index := L.last_index + 1 }
  else none

/-- `add_frame(Ts... info_in) { m_content[last_frame] = tuple(info_in...);
++last_frame; }` — unchecked subscript, `none` = undefined out-of-bounds
write. -/
def FrameLogger.add_frame {Row : Type} (L : FrameLogger Row) (info_in : Row) :
    Option (FrameLogger Row) :=
  if L.last_frame < L.m_content.length then
    some { L with
             m_content := L.m_content.set L.last_frame info_in
             last_frame := L.last_frame + 1 }
  else none

/-- `add_line(const Us&... ts) { (outfile << ... << ts) << std::endl; }` -/
def FrameLogger.add_line {Row : Type} (L : FrameLogger Row)
    (toks : List String) : FrameLogger Row :=
  { L with outfile := (L.outfile.emitAll toks).emit "\n" }

/-- `add_word(const Us&... ts) { (outfile << ... << ts); }` -/
def FrameLogger.add_word {Row : Type} (L : FrameLogger Row)
    (toks : List String) : FrameLogger Row :=
  { L with outfile := L.outfile.emitAll toks }

/-- `write_tuple_impl(const tuple&)`: fold expression
`((outfile << "\t" << item), ...)` over the fields of one row. -/
def write_tuple_impl {Row : Type} (fieldStrs : Row → List String)
    (s : Sink) (t : Row) : Sink :=
  (fieldStrs t).foldl (fun f item => (f.emit "\t").emit item) s

/-- `write()`: the serialization routine, statement by statement. -/
def FrameLogger.write {Row : Type} (fieldStrs : Row → List String)
    (L : FrameLogger Row) : FrameLogger Row :=
  -- outfile << "trial index:" << std::endl;
  let f0 := (L.outfile.emit "trial index:").emit "\n"
  -- for (ri = 0; ri < last_index; ++ri) outfile << m_index[ri] << "\t";
  let f1 := (L.m_index.take L.last_index).foldl
    (fun f v => (f.emit (toString v)).emit "\t") f0
  -- outfile << std::endl; outfile << std::endl;
  let f2 := (f1.emit "\n").emit "\n"
  -- outfile << "fr_nr\t" << headline << std::endl;
  let f3 := ((f2.emit "fr_nr\t").emit L.headline).emit "\n"
  -- for (i = 0; i < last_frame; ++i) { outfile << i;
  --   write_tuple_impl(m_content[i]); outfile << std::endl; }
  let f4 := ((L.m_content.take L.last_frame).enum).foldl
    (fun f p => (write_tuple_impl fieldStrs (f.emit (toString p.1)) p.2).emit "\n") f3
  { L with outfile := f4, log_written := true }

/-- `~FrameLogger() { if (!log_written) write(); outfile.close(); }` —
yields the sink as released at end of life (`close` does not change the
characters already written). -/
def FrameLogger.destruct {Row : Type} (fieldStrs : Row → List String)
    (L : FrameLogger Row) : Sink :=
  (if L.log_written then L else L.write fieldStrs).outfile

/-- One public mutating operation of the recorder. -/
inductive Op (Row : Type) where
  | startNewTrial : Op Row
  | addFrame : Row → Op Row
  | addHeadline : String → Op Row
  | addLine : List String → Op Row
  | addWord : List String → Op Row
  | writeOp : Op Row

/-- Execute one operation (`none` = the undefined out-of-bounds write). -/
def step {Row : Type} (fieldStrs : Row → List String)
    (L : FrameLogger Row) : Op Row → Option (FrameLogger Row)
  | Op.startNewTrial => L.start_new_trial
  | Op.addFrame r => L.add_frame r
  | Op.addHeadline s => some (L.add_headline s)
  | Op.addLine toks => some (L.add_line toks)
  | Op.addWord toks => some (L.add_word toks)
  | Op.writeOp => some (L.write fieldStrs)

/-- Execute a sequence of operations. -/
def run {Row : Type} (fieldStrs : Row → List String)
    (L : FrameLogger Row) : List (Op Row) → Option (FrameLogger Row)
  | [] => some L
  | op :: rest => (step fieldStrs L op).bind (fun L1 => run fieldStrs L1 rest)

/-- Field serialization for rows with no fields (`FrameLogger<>`). -/
def noFields : Unit → List String := fun _ => []

/-- Field serialization for the instantiation `FrameLogger<int, std::string>`:
an `int` streams as base-10 text, a `std::string` verbatim. -/
def exFields : Int × String → List String := fun p => [toString p.1, p.2]

/-- The spec's concrete scenario (§8): `T=2, F=5`, one trial mark, three
frames `(1,"a")`, a second trial mark, two frames `(4,"b")`. -/
def scenarioOps : List (Op (Int × String)) :=
  [Op.startNewTrial, Op.addFrame (1, "a"), Op.addFrame (1, "a"),
   Op.addFrame (1, "a"), Op.startNewTrial, Op.addFrame (4, "b"),
   Op.addFrame (4, "b")]

/-- The recorder state the scenario reaches just before `write()`. -/
def scenarioState : FrameLogger (Int × String) :=
  { m_index := [0, 3]
    m_content := [(1, "a"), (1, "a"), (1, "a"), (4, "b"), (4, "b")]
    last_index := 2
    last_frame := 5
    log_written := false
    outfile := { good := true, data := "" }
    headline := "" }

/-- The structured block as the spec words it (§4.4 steps 1-5, §6 format):
label line, index line (each index followed by a tab), blank line, header
line `fr_nr\t<headline>`, then for each `i < n_rows` the line
`i\t<field0>\t<field1>...`, each line `\n`-terminated, nothing after the
last row line. -/
def serializationSpec {Row : Type} (fieldStrs : Row → List String)
    (L : FrameLogger Row) : String :=
  "trial index:" ++ "\n"
    ++ strConcat ((L.m_index.take L.last_index).map (fun v => toString v ++ "\t"))
    ++ "\n" ++ "\n"
    ++ "fr_nr\t" ++ L.headline ++ "\n"
    ++ strConcat (((L.m_content.take L.last_frame).enum).map
        (fun p => toString p.1
          ++ strConcat ((fieldStrs p.2).map (fun item => "\t" ++ item))
          ++ "\n"))

/-- The claim's observation sequence: the `n_rows` value current at each
`start_new_trial` call of an operation list, starting from `n` rows. -/
def trialMarks {Row : Type} : List (Op Row) → Nat → List Nat
  | [], _ => []
  | Op.startNewTrial :: rest, n => n :: trialMarks rest n
  | Op.addFrame _ :: rest, n => trialMarks rest (n + 1)
  | Op.addHeadline _ :: rest, n => trialMarks rest n
  | Op.addLine _ :: rest, n => trialMarks rest n
  | Op.addWord _ :: rest, n => trialMarks rest n
  | Op.writeOp :: rest, n => trialMarks rest n

theorem Sink.good_emit (s : Sink) (a : String) : (s.emit a).good = s.good := by
  unfold Sink.emit
  split <;> rfl

theorem Sink.emit_of_good {s : Sink} (h : s.good = true) (a : String) :
    s.emit a = { good := true, data := s.data ++ a } := by
  simp [Sink.emit, h]

theorem Sink.emit_of_bad {s : Sink} (h : s.good = false) (a : String) :
    s.emit a = s := by
  simp [Sink.emit, h]

theorem Sink.emit_empty (s : Sink) : s.emit "" = s := by
  rcases s with ⟨g, d⟩
  cases g <;> simp [Sink.emit]

theorem Sink.emit_emit (s : Sink) (a b : String) :
    (s.emit a).emit b = s.emit (a ++ b) := by
  rcases s with ⟨g, d⟩
  cases g <;> simp [Sink.emit, String.append_assoc]

theorem foldl_emit_eq {α : Type} (F : Sink → α → Sink) (g : α → String)
    (hF : ∀ (s : Sink) (x : α), F s x = s.emit (g x)) (l : List α) :
    ∀ s : Sink, l.foldl F s = s.emit (strConcat (l.map g)) := by
  induction l with
  | nil =>
    intro s
    simp [strConcat, Sink.emit_empty]
  | cons a t ih =>
    intro s
    rw [List.foldl_cons, hF, ih, Sink.emit_emit]
    rfl

theorem Sink.emitAll_eq (s : Sink) (toks : List String) :
    s.emitAll toks = s.emit (strConcat toks) := by
  have h := foldl_emit_eq Sink.emit (fun x => x) (fun s x => rfl) toks s
  simpa [Sink.emitAll] using h

theorem write_tuple_impl_eq {Row : Type} (f : Row → List String)
    (s : Sink) (t : Row) :
    write_tuple_impl f s t
      = s.emit (strConcat ((f t).map (fun item => "\t" ++ item))) :=
  foldl_emit_eq _ _ (fun s x => by rw [Sink.emit_emit]) (f t) s

theorem write_outfile {Row : Type} (f : Row → List String) (L : FrameLogger Row) :
    (L.write f).outfile = L.outfile.emit (serializationSpec f L) := by
  have hidx := foldl_emit_eq
    (fun (s : Sink) (v : Int) => (s.emit (toString v)).emit "\t")
    (fun v => toString v ++ "\t")
    (fun s x => by simp only [Sink.emit_emit])
    (L.m_index.take L.last_index)
  have hrow := foldl_emit_eq
    (fun (s : Sink) (p : Nat × Row) =>
      (write_tuple_impl f (s.emit (toString p.1)) p.2).emit "\n")
    (fun p => toString p.1
      ++ strConcat ((f p.2).map (fun item => "\t" ++ item)) ++ "\n")
    (fun s p => by simp only [write_tuple_impl_eq, Sink.emit_emit])
    ((L.m_content.take L.last_frame).enum)
  simp only [FrameLogger.write]
  rw [hidx, hrow]
  simp only [serializationSpec, Sink.emit_emit, String.append_assoc]

theorem take_set_of_le {α : Type} (v : α) :
    ∀ (l : List α) (i n : Nat), n ≤ i → (l.set i v).take n = l.take n := by
  intro l
  induction l with
  | nil => intro i n h; simp
  | cons a t ih =>
    intro i n h
    cases i with
    | zero =>
      have hn : n = 0 := Nat.le_zero.mp h
      subst hn
      simp
    | succ j =>
      cases n with
      | zero => simp
      | succ m =>
        show a :: (t.set j v).take m = a :: t.take m
        rw [ih j m (Nat.le_of_succ_le_succ h)]

theorem take_set_succ {α : Type} (l : List α) (i : Nat) (v : α)
    (h : i < l.length) :
    (l.set i v).take (i + 1) = l.take i ++ [v] := by
  rw [List.take_succ, take_set_of_le v l i i (Nat.le_refl i),
      List.getElem?_set_self h]
  rfl

theorem start_new_trial_eq_some {Row : Type} {L L1 : FrameLogger Row}
    (h : L.start_new_trial = some L1) :
    L.last_index < L.m_index.length ∧
      L1 = { L with
               m_index := L.m_index.set L.last_index (L.last_frame : Int)
               last_index := L.last_index + 1 } := by
  unfold FrameLogger.start_new_trial at h
  by_cases hlt : L.last_index < L.m_index.length
  · rw [if_pos hlt] at h
    exact ⟨hlt, (Option.some.inj h).symm⟩
  · rw [if_neg hlt] at h
    cases h

theorem add_frame_eq_some {Row : Type} {L L1 : FrameLogger Row} {r : Row}
    (h : L.add_frame r = some L1) :
    L.last_frame < L.m_content.length ∧
      L1 = { L with
               m_content := L.m_content.set L.last_frame r
               last_frame := L.last_frame + 1 } := by
  unfold FrameLogger.add_frame at h
  by_cases hlt : L.last_frame < L.m_content.length
  · rw [if_pos hlt] at h
    exact ⟨hlt, (Option.some.inj h).symm⟩
  · rw [if_neg hlt] at h
    cases h

theorem run_index {Row : Type} (f : Row → List String) :
    ∀ (ops : List (Op Row)) (L L1 : FrameLogger Row),
      run f L ops = some L1 →
      L1.m_index.take L1.last_index
        = L.m_index.take L.last_index
          ++ (trialMarks ops L.last_frame).map Int.ofNat := by
  intro ops
  induction ops with
  | nil =>
    intro L L1 h
    simp only [run] at h
    cases h
    simp [trialMarks]
  | cons op rest ih =>
    intro L L1 h
    cases op with
    | startNewTrial =>
      simp only [run, step] at h
      rcases Option.bind_eq_some.mp h with ⟨L2, hstep, hrest⟩
      obtain ⟨hlt, rfl⟩ := start_new_trial_eq_some hstep
      have h2 := ih _ _ hrest
      dsimp only at h2
      rw [take_set_succ L.m_index L.last_index _ hlt] at h2
      rw [h2]
      simp [trialMarks, List.append_assoc]
    | addFrame r =>
      simp only [run, step] at h
      rcases Option.bind_eq_some.mp h with ⟨L2, hstep, hrest⟩
      obtain ⟨hlt, rfl⟩ := add_frame_eq_some hstep
      have h2 := ih _ _ hrest
      dsimp only at h2
      rw [h2]
      simp [trialMarks]
    | addHeadline s =>
      simp only [run, step, Option.some_bind] at h
      simpa [trialMarks, FrameLogger.add_headline] using ih _ _ h
    | addLine toks =>
      simp only [run, step, Option.some_bind] at h
      simpa [trialMarks, FrameLogger.add_line] using ih _ _ h
    | addWord toks =>
      simp only [run, step, Option.some_bind] at h
      simpa [trialMarks, FrameLogger.add_word] using ih _ _ h
    | writeOp =>
      simp only [run, step, Option.some_bind] at h
      simpa [trialMarks, FrameLogger.write] using ih _ _ h

theorem trialMarks_le {Row : Type} :
    ∀ (ops : List (Op Row)) (n x : Nat), x ∈ trialMarks ops n → n ≤ x := by
  intro ops
  induction ops with
  | nil => intro n x hx; simp [trialMarks] at hx
  | cons op rest ih =>
    intro n x hx
    cases op with
    | startNewTrial =>
      simp only [trialMarks, List.mem_cons] at hx
      rcases hx with rfl | hx
      · exact Nat.le_refl x
      · exact ih n x hx
    | addFrame r =>
      exact Nat.le_of_succ_le (ih (n + 1) x hx)
    | addHeadline s => exact ih n x hx
    | addLine toks => exact ih n x hx
    | addWord toks => exact ih n x hx
    | writeOp => exact ih n x hx

theorem trialMarks_sorted {Row : Type} :
    ∀ (ops : List (Op Row)) (n : Nat),
      List.Sorted (· ≤ ·) (trialMarks ops n) := by
  intro ops
  induction ops with
  | nil => intro n; simp [trialMarks]
  | cons op rest ih =>
    intro n
    cases op with
    | startNewTrial =>
      show List.Sorted (· ≤ ·) (n :: trialMarks rest n)
      rw [List.sorted_cons]
      exact ⟨fun b hb => trialMarks_le rest n b hb, ih n⟩
    | addFrame r => exact ih (n + 1)
    | addHeadline s => exact ih n
    | addLine toks => exact ih n
    | addWord toks => exact ih n
    | writeOp => exact ih n

theorem sorted_map_ofNat {l : List Nat} (h : List.Sorted (· ≤ ·) l) :
    List.Sorted (· ≤ ·) (l.map Int.ofNat) := by
  unfold List.Sorted at h ⊢
  rw [List.pairwise_map]
  exact h.imp (fun hab => Int.ofNat_le.mpr hab)

theorem step_outfile_bad {Row : Type} (f : Row → List String)
    {L L1 : FrameLogger Row} {op : Op Row}
    (hg : L.outfile.good = false) (h : step f L op = some L1) :
    L1.outfile = L.outfile := by
  cases op with
  | startNewTrial =>
    obtain ⟨-, rfl⟩ := start_new_trial_eq_some h
    rfl
  | addFrame r =>
    obtain ⟨-, rfl⟩ := add_frame_eq_some h
    rfl
  | addHeadline s =>
    cases Option.some.inj h
    rfl
  | addLine toks =>
    cases Option.some.inj h
    show ((L.outfile.emitAll toks).emit "\n") = L.outfile
    rw [Sink.emitAll_eq, Sink.emit_of_bad hg, Sink.emit_of_bad hg]
  | addWord toks =>
    cases Option.some.inj h
    show (L.outfile.emitAll toks) = L.outfile
    rw [Sink.emitAll_eq, Sink.emit_of_bad hg]
  | writeOp =>
    cases Option.some.inj h
    show (L.write f).outfile = L.outfile
    rw [write_outfile, Sink.emit_of_bad hg]

theorem run_outfile_bad {Row : Type} (f : Row → List String) :
    ∀ (ops : List (Op Row)) (L L1 : FrameLogger Row),
      L.outfile.good = false → run f L ops = some L1 →
      L1.outfile = L.outfile := by
  intro ops
  induction ops with
  | nil =>
    intro L L1 hg h
    simp only [run] at h
    cases h
    rfl
  | cons op rest ih =>
    intro L L1 hg h
    simp only [run] at h
    rcases Option.bind_eq_some.mp h with ⟨L2, hstep, hrest⟩
    have h2 := step_outfile_bad f hg hstep
    have hg2 : L2.outfile.good = false := by rw [h2]; exact hg
    rw [ih L2 L1 hg2 hrest, h2]

theorem start_new_trial_of_lt {Row : Type} (L : FrameLogger Row)
    (h : L.last_index < L.m_index.length) :
    L.start_new_trial
      = some { L with
                 m_index := L.m_index.set L.last_index (L.last_frame : Int)
                 last_index := L.last_index + 1 } := by
  unfold FrameLogger.start_new_trial
  rw [if_pos h]

theorem write_log_written {Row : Type} (f : Row → List String)
    (L : FrameLogger Row) : (L.write f).log_written = true := rfl

theorem add_line_outfile {Row : Type} (L : FrameLogger Row)
    (toks : List String) :
    (L.add_line toks).outfile = L.outfile.emit (strConcat toks ++ "\n") := by
  show (L.outfile.emitAll toks).emit "\n" = _
  rw [Sink.emitAll_eq, Sink.emit_emit]

theorem add_word_outfile {Row : Type} (L : FrameLogger Row)
    (toks : List String) :
    (L.add_word toks).outfile = L.outfile.emit (strConcat toks) :=
  Sink.emitAll_eq L.outfile toks

theorem Sink.emit_append_ext (s : Sink) (a : String) :
    ∃ ext, s.emit a = { good := s.good, data := s.data ++ ext } := by
  rcases s with ⟨g, d⟩
  cases g
  · exact ⟨"", by simp [Sink.emit]⟩
  · exact ⟨a, by simp [Sink.emit]⟩

/-- C1: the source checks no capacity bound.  On a `FrameLogger<T>`
constructed with `(T, F) = (1, 1)`, the second `add_frame` finds
`n_rows = F` and performs an unchecked `m_content[last_frame]` vector
write — undefined behavior (modelled `none`) — instead of signalling
`CapacityExceeded` and leaving the store unchanged; likewise the second
`start_new_trial` with `n_idx = T`. -/
theorem c1_capacity_unchecked :
    ((FrameLogger.construct Unit 1 1 true).add_frame ()).isSome = true
    ∧ (((FrameLogger.construct Unit 1 1 true).add_frame ()).bind
        (fun L => L.add_frame ())).isNone = true
    ∧ ((FrameLogger.construct Unit 1 1 true).start_new_trial).isSome = true
    ∧ (((FrameLogger.construct Unit 1 1 true).start_new_trial).bind
        (fun L => L.start_new_trial)).isNone = true :=
  ⟨rfl, rfl, rfl, rfl⟩

/-- C2 counterexample: `write()` itself never consults the guard, so a
second EXPLICIT finalize emits the structured block again: on a fresh
`(T, F) = (1, 0)` recorder the sink holds the block once after one
`write()` and twice after two, so the contents after two calls differ
from the contents after one. -/
theorem c2_counterexample_double_write :
    (((FrameLogger.construct Unit 1 0 true).write noFields).write
        noFields).outfile.data
      = "trial index:\n\n\nfr_nr\t\n" ++ "trial index:\n\n\nfr_nr\t\n"
    ∧ ((FrameLogger.construct Unit 1 0 true).write noFields).outfile.data
      = "trial index:\n\n\nfr_nr\t\n"
    ∧ (("trial index:\n\n\nfr_nr\t\n" ++ "trial index:\n\n\nfr_nr\t\n")
        == "trial index:\n\n\nfr_nr\t\n") = false :=
  ⟨rfl, rfl, by decide⟩

/-- C2 (amended): only the END-OF-LIFE path is guarded: after a finalize,
the destructor's `if (!log_written)` check makes its cleanup a no-op, so
the sink released at end of life after an explicit finalize equals the
sink after that one finalize — no second emission on the destructor path.
(A second EXPLICIT `write()` call is unguarded and double-writes.) -/
theorem c2_destructor_after_write_noop {Row : Type}
    (f : Row → List String) (L : FrameLogger Row) :
    FrameLogger.destruct f (L.write f) = (L.write f).outfile := by
  unfold FrameLogger.destruct
  rw [write_log_written]
  simp

/-- C9: `add_line` and `add_word` only stream to the sink: they leave
`m_index`, `m_content`, `last_index` (`n_idx`), `last_frame` (`n_rows`),
`headline` and the `log_written` guard unchanged, and only append to the
sink's data. -/
theorem c9_raw_channel_frame_effect {Row : Type} (L : FrameLogger Row)
    (toks : List String) :
    ((L.add_line toks).m_index = L.m_index
      ∧ (L.add_line toks).m_content = L.m_content
      ∧ (L.add_line toks).last_index = L.last_index
      ∧ (L.add_line toks).last_frame = L.last_frame
      ∧ (L.add_line toks).headline = L.headline
      ∧ (L.add_line toks).log_written = L.log_written
      ∧ ∃ ext, (L.add_line toks).outfile
          = { good := L.outfile.good, data := L.outfile.data ++ ext })
    ∧ ((L.add_word toks).m_index = L.m_index
      ∧ (L.add_word toks).m_content = L.m_content
      ∧ (L.add_word toks).last_index = L.last_index
      ∧ (L.add_word toks).last_frame = L.last_frame
      ∧ (L.add_word toks).headline = L.headline
      ∧ (L.add_word toks).log_written = L.log_written
      ∧ ∃ ext, (L.add_word toks).outfile
          = { good := L.outfile.good, data := L.outfile.data ++ ext }) := by
  refine ⟨⟨rfl, rfl, rfl, rfl, rfl, rfl, ?_⟩,
          ⟨rfl, rfl, rfl, rfl, rfl, rfl, ?_⟩⟩
  · rw [add_line_outfile]
    exact Sink.emit_append_ext _ _
  · rw [add_word_outfile]
    exact Sink.emit_append_ext _ _

/-- C10: `write()` reads but never modifies the recorded data: `m_index`,
`m_content`, `last_index` (`n_idx`), `last_frame` (`n_rows`) and
`headline` are unchanged, and the one-shot guard `log_written` is set to
true. -/
theorem c10_write_frame_effect {Row : Type} (f : Row → List String)
    (L : FrameLogger Row) :
    (L.write f).m_index = L.m_index
    ∧ (L.write f).m_content = L.m_content
    ∧ (L.write f).last_index = L.last_index
    ∧ (L.write f).last_frame = L.last_frame
    ∧ (L.write f).headline = L.headline
    ∧ (L.write f).log_written = true :=
  ⟨rfl, rfl, rfl, rfl, rfl, rfl⟩

/-- C3: if finalize was never called (`log_written = false`) and the sink is
healthy, the destructor runs `write()` before the sink is released, so the
released sink holds everything written so far followed by the structured
serialization of the `n_rows` rows and `n_idx` indices as they stand. -/
theorem c3_destructor_flushes {Row : Type} (f : Row → List String)
    (L : FrameLogger Row) (hw : L.log_written = false)
    (hg : L.outfile.good = true) :
    FrameLogger.destruct f L
      = { good := true, data := L.outfile.data ++ serializationSpec f L } := by
  unfold FrameLogger.destruct
  rw [hw]
  simp only [Bool.false_eq_true, if_false]
  rw [write_outfile, Sink.emit_of_good hg]

/-- Witness for C3 at a concrete one-row, one-index recorder state. -/
theorem c3_destructor_flushes_witness :
    ({ m_index := [0], m_content := [()], last_index := 1, last_frame := 1,
       log_written := false, outfile := { good := true, data := "pre" },
       headline := "h" } : FrameLogger Unit).log_written = false
    ∧ ({ m_index := [0], m_content := [()], last_index := 1, last_frame := 1,
         log_written := false, outfile := { good := true, data := "pre" },
         headline := "h" } : FrameLogger Unit).outfile.good = true
    ∧ FrameLogger.destruct noFields
        { m_index := [0], m_content := [()], last_index := 1, last_frame := 1,
          log_written := false, outfile := { good := true, data := "pre" },
          headline := "h" }
      = { good := true,
          data := "pre" ++ serializationSpec noFields
            { m_index := [0], m_content := [()], last_index := 1,
              last_frame := 1, log_written := false,
              outfile := { good := true, data := "pre" }, headline := "h" } } :=
  ⟨rfl, rfl, c3_destructor_flushes noFields _ rfl rfl⟩

/-- C4: on a healthy sink, `write()` appends exactly the spec-worded block
`serializationSpec`: the label line `trial index:`, one line with the
`n_idx` indices each followed by a tab, a blank line, the header line
`fr_nr\t<headline>`, then for each `i < n_rows` a line `i` followed by a
tab and the text of each field of row `i` in schema order, each line
`\n`-terminated and nothing after the last row line. -/
theorem c4_serialization_format {Row : Type} (f : Row → List String)
    (L : FrameLogger Row) (hg : L.outfile.good = true) :
    (L.write f).outfile.data = L.outfile.data ++ serializationSpec f L := by
  rw [write_outfile, Sink.emit_of_good hg]

/-- Witness for C4 on the spec's §8 scenario, checking the emitted block
verbatim against the spec's expected text. -/
theorem c4_serialization_format_witness :
    run exFields (FrameLogger.construct (Int × String) 2 5 true) scenarioOps
      = some scenarioState
    ∧ scenarioState.outfile.good = true
    ∧ (scenarioState.write exFields).outfile.data
      = scenarioState.outfile.data ++ serializationSpec exFields scenarioState
    ∧ serializationSpec exFields scenarioState
      = "trial index:\n0\t3\t\n\nfr_nr\t\n0\t1\ta\n1\t1\ta\n2\t1\ta\n3\t4\tb\n4\t4\tb\n" :=
  ⟨rfl, rfl, c4_serialization_format exFields scenarioState rfl, by decide⟩

/-- C7 counterexample: when the destination cannot be opened the
constructor runs to completion signalling nothing, and the recorder IS
usable afterward: `add_frame` succeeds and `write()` completes (setting
the guard); the only trace of the failure is the dead, empty sink. -/
theorem c7_counterexample_open_failure :
    ((FrameLogger.construct Unit 1 1 false).add_frame ()).isSome = true
    ∧ ((FrameLogger.construct Unit 1 1 false).add_frame ()).bind
        (fun L => some ((L.write noFields).log_written)) = some true
    ∧ (FrameLogger.construct Unit 1 1 false).outfile
      = { good := false, data := "" } :=
  ⟨rfl, rfl, rfl⟩

/-- C7 (amended): an open failure is silently swallowed: the constructor
yields a normal recorder whose stream has the failbit set, every later
insertion on that stream is a no-op, and the destination never receives a
byte no matter which operations follow. -/
theorem c7_open_failure_silent {Row : Type} [Inhabited Row]
    (f : Row → List String) (T F : Nat) (ops : List (Op Row))
    (L1 : FrameLogger Row)
    (h : run f (FrameLogger.construct Row T F false) ops = some L1) :
    L1.outfile = { good := false, data := "" } := by
  have hg : (FrameLogger.construct Row T F false).outfile.good = false := rfl
  rw [run_outfile_bad f ops _ _ hg h]
  rfl

/-- Witness for C7 (amended): a raw-channel line after a failed open
reaches the sink nowhere. -/
theorem c7_open_failure_silent_witness :
    run noFields (FrameLogger.construct Unit 1 1 false) [Op.addLine ["hi"]]
      = some { m_index := [0], m_content := [()], last_index := 0,
               last_frame := 0, log_written := false,
               outfile := { good := false, data := "" }, headline := "" }
    ∧ ({ m_index := [0], m_content := [()], last_index := 0, last_frame := 0,
         log_written := false, outfile := { good := false, data := "" },
         headline := "" } : FrameLogger Unit).outfile
      = { good := false, data := "" } :=
  ⟨rfl, c7_open_failure_silent noFields 1 1 [Op.addLine ["hi"]] _ rfl⟩

/-- C8: on a healthy sink `add_line` appends the tokens' text
representations consecutively (no separators) followed by exactly one line
terminator, `add_word` appends them with no terminator; in particular
`add_line("x",1)` then `add_word("y")` then `add_word("z")` appends
`x1\nyz`. -/
theorem c8_raw_channel_format {Row : Type} (L : FrameLogger Row)
    (toks : List String) (hg : L.outfile.good = true) :
    (L.add_line toks).outfile.data
      = L.outfile.data ++ (strConcat toks ++ "\n")
    ∧ (L.add_word toks).outfile.data = L.outfile.data ++ strConcat toks
    ∧ (((L.add_line ["x", "1"]).add_word ["y"]).add_word ["z"]).outfile.data
      = L.outfile.data ++ "x1\nyz" := by
  refine ⟨?_, ?_, ?_⟩
  · rw [add_line_outfile, Sink.emit_of_good hg]
  · rw [add_word_outfile, Sink.emit_of_good hg]
  · have hchain :
        (((L.add_line ["x", "1"]).add_word ["y"]).add_word ["z"]).outfile
          = L.outfile.emit "x1\nyz" := by
      rw [add_word_outfile, add_word_outfile, add_line_outfile,
        Sink.emit_emit, Sink.emit_emit]
      exact congrArg L.outfile.emit (by decide)
    rw [hchain, Sink.emit_of_good hg]

/-- Witness for C8 on a fresh recorder with tokens `"a"`, `"b"`. -/
theorem c8_raw_channel_format_witness :
    (FrameLogger.construct Unit 1 1 true).outfile.good = true
    ∧ (((FrameLogger.construct Unit 1 1 true).add_line ["a", "b"]).outfile.data
        = (FrameLogger.construct Unit 1 1 true).outfile.data
          ++ (strConcat ["a", "b"] ++ "\n")
      ∧ ((FrameLogger.construct Unit 1 1 true).add_word ["a", "b"]).outfile.data
        = (FrameLogger.construct Unit 1 1 true).outfile.data
          ++ strConcat ["a", "b"]
      ∧ ((((FrameLogger.construct Unit 1 1 true).add_line
              ["x", "1"]).add_word ["y"]).add_word ["z"]).outfile.data
        = (FrameLogger.construct Unit 1 1 true).outfile.data ++ "x1\nyz") :=
  ⟨rfl, c8_raw_channel_format (FrameLogger.construct Unit 1 1 true)
    ["a", "b"] rfl⟩

/-- C5: an in-capacity `start_new_trial` stores the CURRENT `n_rows`
(`last_frame`) at position `n_idx`: on a fresh recorder it records 0, in
general the stored slot reads back as `last_frame` with `n_rows`
untouched, and a second consecutive call (still in capacity, no
intervening `add_frame`) records the same value again — both slots hold
it, and neither call is an error. -/
theorem c5_start_new_trial_records_nrows {Row : Type} [Inhabited Row]
    (T F : Nat) (hT : 0 < T) (L : FrameLogger Row)
    (h : L.last_index < L.m_index.length) :
    (∃ L0, (FrameLogger.construct Row T F true).start_new_trial = some L0
      ∧ L0.m_index[0]? = some 0 ∧ L0.last_frame = 0)
    ∧ ∃ L1, L.start_new_trial = some L1
        ∧ L1.m_index[L.last_index]? = some (L.last_frame : Int)
        ∧ L1.last_frame = L.last_frame
        ∧ L1.last_index = L.last_index + 1
        ∧ (L1.last_index < L1.m_index.length →
            ∃ L2, L1.start_new_trial = some L2
              ∧ L2.m_index[L1.last_index]? = some (L.last_frame : Int)
              ∧ L2.m_index[L.last_index]? = some (L.last_frame : Int)) := by
  constructor
  · have hlen0 : (0 : Nat) < (List.replicate T (0 : Int)).length := by
      rw [List.length_replicate]
      exact hT
    refine ⟨_, start_new_trial_of_lt _ hlen0, ?_, rfl⟩
    show ((List.replicate T (0 : Int)).set 0 ((0 : Nat) : Int))[0]?
      = some 0
    exact List.getElem?_set_self hlen0
  · refine ⟨_, start_new_trial_of_lt L h, List.getElem?_set_self h,
      rfl, rfl, ?_⟩
    intro h2
    refine ⟨_, start_new_trial_of_lt _ h2, List.getElem?_set_self h2, ?_⟩
    show ((L.m_index.set L.last_index (L.last_frame : Int)).set
        (L.last_index + 1) (L.last_frame : Int))[L.last_index]?
      = some (L.last_frame : Int)
    rw [List.getElem?_set_ne (by omega)]
    exact List.getElem?_set_self h

/-- Witness for C5 at `T = 2`, `F = 3` on the freshly constructed
recorder. -/
theorem c5_start_new_trial_records_nrows_witness :
    (0 : Nat) < 2
    ∧ (FrameLogger.construct Unit 2 3 true).last_index
        < (FrameLogger.construct Unit 2 3 true).m_index.length
    ∧ ((∃ L0, (FrameLogger.construct Unit 2 3 true).start_new_trial = some L0
        ∧ L0.m_index[0]? = some 0 ∧ L0.last_frame = 0)
      ∧ ∃ L1, (FrameLogger.construct Unit 2 3 true).start_new_trial = some L1
          ∧ L1.m_index[(FrameLogger.construct Unit 2 3 true).last_index]?
            = some ((FrameLogger.construct Unit 2 3 true).last_frame : Int)
          ∧ L1.last_frame = (FrameLogger.construct Unit 2 3 true).last_frame
          ∧ L1.last_index
            = (FrameLogger.construct Unit 2 3 true).last_index + 1
          ∧ (L1.last_index < L1.m_index.length →
              ∃ L2, L1.start_new_trial = some L2
                ∧ L2.m_index[L1.last_index]?
                  = some ((FrameLogger.construct Unit 2 3 true).last_frame : Int)
                ∧ L2.m_index[(FrameLogger.construct Unit 2 3 true).last_index]?
                  = some ((FrameLogger.construct Unit 2 3 true).last_frame : Int))) :=
  ⟨by decide, by decide,
    c5_start_new_trial_records_nrows 2 3 (by decide)
      (FrameLogger.construct Unit 2 3 true) (by decide)⟩

/-- C6: along every operation sequence that stays within capacity (no
undefined out-of-bounds write), the stored trial-start indices
`m_index[0..n_idx)` are exactly the `n_rows` values observed at the
successive `start_new_trial` calls, in order, and that sequence is
non-decreasing. -/
theorem c6_index_invariant {Row : Type} [Inhabited Row]
    (f : Row → List String) (T F : Nat) (ok : Bool) (ops : List (Op Row))
    (L1 : FrameLogger Row)
    (h : run f (FrameLogger.construct Row T F ok) ops = some L1) :
    L1.m_index.take L1.last_index = (trialMarks ops 0).map Int.ofNat
    ∧ List.Sorted (· ≤ ·) (L1.m_index.take L1.last_index) := by
  have h1 := run_index f ops _ _ h
  simp only [FrameLogger.construct, List.take_zero, List.nil_append] at h1
  refine ⟨h1, ?_⟩
  rw [h1]
  exact sorted_map_ofNat (trialMarks_sorted ops 0)

/-- Witness for C6: trial, frame, trial on a `T = 2`, `F = 1` recorder —
stored indices `[0, 1]`, the observed `n_rows` values, sorted. -/
theorem c6_index_invariant_witness :
    run noFields (FrameLogger.construct Unit 2 1 true)
        [Op.startNewTrial, Op.addFrame (), Op.startNewTrial]
      = some { m_index := [0, 1], m_content := [()], last_index := 2,
               last_frame := 1, log_written := false,
               outfile := { good := true, data := "" }, headline := "" }
    ∧ (({ m_index := [0, 1], m_content := [()], last_index := 2,
          last_frame := 1, log_written := false,
          outfile := { good := true, data := "" }, headline := "" } :
            FrameLogger Unit).m_index.take 2
        = (trialMarks
            [Op.startNewTrial, Op.addFrame (), Op.startNewTrial] 0).map
              Int.ofNat
      ∧ List.Sorted (· ≤ ·)
          (({ m_index := [0, 1], m_content := [()], last_index := 2,
              last_frame := 1, log_written := false,
              outfile := { good := true, data := "" }, headline := "" } :
                FrameLogger Unit).m_index.take 2)) :=
  ⟨rfl, c6_index_invariant noFields 2 1 true
    [Op.startNewTrial, Op.addFrame (), Op.startNewTrial] _ rfl⟩

end FrameLoggerModel
